import Mathlib

/-!
Verification of the carrier crate: a shallow embedding of `src/lib.rs`.

The crate defines a two-case completion carrier, a conversion trait
`IntoCompletion` with five built-in implementations, and a macro that
expands to a match on the carrier, returning early on the abrupt case.
Each Rust impl of `into_completion` is embedded as one Lean function in
its own namespace; the `E: Into<F>` bound of the Result impls becomes an
explicit conversion function argument `einto : E → F`.
-/

namespace Carrier

/-- The two-case completion carrier of lib.rs lines 153-158: either a
produced `Value` or an `Abrupt` failure payload. -/
inductive Completion (V F : Type) where
  | Value : V → Completion V F
  | Abrupt : F → Completion V F

/-- Rust's `Result<T, E>`: `Ok` holds a success value, `Err` a failure. -/
inductive Result (T E : Type) where
  | Ok : T → Result T E
  | Err : E → Result T E

/-- A raw `*const U` pointer, modelled by its address; only nullness and
identity of the pointer are observed by the crate. -/
structure ConstPtr (U : Type) where
  addr : Nat

/-- A raw `*mut U` pointer, modelled by its address. -/
structure MutPtr (U : Type) where
  addr : Nat

/-- Rust's `<*const U>::is_null`: true exactly when the address is zero. -/
def ConstPtr.is_null {U : Type} (p : ConstPtr U) : Bool :=
  p.addr == 0

/-- Rust's `<*mut U>::is_null`: true exactly when the address is zero. -/
def MutPtr.is_null {U : Type} (p : MutPtr U) : Bool :=
  p.addr == 0

namespace ResultToResult

/-- lib.rs lines 169-180: `impl IntoCompletion of Result (U, F) for Result (T, E)`
with `E: Into<F>` passed explicitly as `einto`. `Ok(value)` becomes
`Completion::Value(value)`; `Err(err)` becomes `Completion::Abrupt(Err(err.into()))`. -/
def into_completion {T U E F : Type} (einto : E → F)
    (self : Result T E) : Completion T (Result U F) :=
  match self with
  | .Ok value => .Value value
  | .Err err => .Abrupt (.Err (einto err))

end ResultToResult

namespace ResultToOptionResult

/-- lib.rs lines 182-193: `impl IntoCompletion of Option (Result (U, F)) for Result (T, E)`
with `E: Into<F>` passed explicitly as `einto`. `Ok(value)` becomes
`Completion::Value(value)`; `Err(err)` becomes `Completion::Abrupt(Some(Err(err.into())))`. -/
def into_completion {T U E F : Type} (einto : E → F)
    (self : Result T E) : Completion T (Option (Result U F)) :=
  match self with
  | .Ok value => .Value value
  | .Err err => .Abrupt (some (.Err (einto err)))

end ResultToOptionResult

namespace OptionToOption

/-- lib.rs lines 195-204: `impl IntoCompletion of Option V for Option U`.
`Some(value)` becomes `Completion::Value(value)`; `None` becomes
`Completion::Abrupt(None)`; the target element type `V` is fully
unconstrained and never instantiated. -/
def into_completion {U V : Type} (self : Option U) : Completion U (Option V) :=
  match self with
  | some value => .Value value
  | none => .Abrupt none

/-- Reads a carrier produced by the option-to-option conversion back into
an option: a value payload is re-wrapped in `some`, an abrupt payload (an
option already) is returned as is. Used to state the round-trip law. -/
def read_back {U : Type} : Completion U (Option U) → Option U
  | .Value u => some u
  | .Abrupt o => o

end OptionToOption

namespace ConstPtrToOption

/-- lib.rs lines 206-216: `impl IntoCompletion of Option V for ConstPtr U`.
A null pointer becomes `Completion::Abrupt(None)`; any other pointer is
passed through unchanged as `Completion::Value(self)`. -/
def into_completion {U V : Type} (self : ConstPtr U) :
    Completion (ConstPtr U) (Option V) :=
  if self.is_null then .Abrupt none else .Value self

end ConstPtrToOption

namespace MutPtrToOption

/-- lib.rs lines 218-228: `impl IntoCompletion of Option V for MutPtr U`.
A null pointer becomes `Completion::Abrupt(None)`; any other pointer is
passed through unchanged as `Completion::Value(self)`. -/
def into_completion {U V : Type} (self : MutPtr U) :
    Completion (MutPtr U) (Option V) :=
  if self.is_null then .Abrupt none else .Value self

end MutPtrToOption

/-- lib.rs lines 134-142: the expansion of the propagation construct.
The carrier `c` is the result of `into_completion` on the source
expression; `rest` is the remainder of the enclosing function body as a
continuation. A value case feeds the payload to the rest of the body; an
abrupt case returns its payload as the function result, skipping `rest`. -/
def tryExpand {V R : Type} (c : Completion V R) (rest : V → R) : R :=
  match c with
  | .Value x => rest x
  | .Abrupt x => x

/-- Maps a function over the abrupt payload of a carrier, leaving the
value case untouched. Used to relate the two built-in Result conversions. -/
def Completion.mapAbrupt {V F G : Type} (g : F → G) :
    Completion V F → Completion V G
  | .Value v => .Value v
  | .Abrupt f => .Abrupt (g f)

/-- The function `foo` of the first concrete scenario of the spec
(tests/basics.rs, test_result_okay): a success outcome holding 42. -/
def foo : Result Int Unit :=
  .Ok 42

/-- The function `bar` of the same scenario: the propagation construct
applied to `foo` inside a function returning `Result String Unit`, with
the rest of the body converting the payload to a string and wrapping it. -/
def bar : Result String Unit :=
  tryExpand (ResultToResult.into_completion id foo)
    (fun x => .Ok (toString x))

end Carrier

namespace Carrier

/-- C1: converting `Err e` through the Result-to-Result instance yields
`Abrupt (Err (einto e))`, the abrupt case wrapping the converted failure.
The second conjunct witnesses that the conversion is applied exactly once:
with the tagging conversion into `E × Nat` that marks each application
with count 1, the abrupt payload carries exactly the tag `(e, 1)`. -/
theorem C1_failure_coercion {T U E F : Type} (einto : E → F) (e : E) :
    ResultToResult.into_completion (T := T) (U := U) einto (.Err e)
      = .Abrupt (.Err (einto e)) ∧
    ResultToResult.into_completion (T := T) (U := U)
      (fun x => (x, 1)) (Result.Err e)
      = Completion.Abrupt (Result.Err (e, 1)) :=
  ⟨rfl, rfl⟩

/-- C2: converting `Ok v` through the Result-to-Result instance yields
`Value v`, the success payload unchanged, for any failure conversion; in
the concrete scenario, the enclosing function `bar` built from `foo`
returning `Ok 42` yields the success outcome holding the string "42". -/
theorem C2_outcome_identity {T U E F : Type} (einto : E → F) (v : T) :
    ResultToResult.into_completion (U := U) (F := F) einto (.Ok v)
      = .Value v ∧
    bar = Result.Ok ("42") :=
  ⟨rfl, rfl⟩

/-- C3: the propagation construct. If the conversion yields the value case
`Value x`, the construct evaluates to the unwrapped payload `x` and the
rest of the function body runs on it; if it yields the abrupt case
`Abrupt a`, the enclosing function returns `a` and the rest of the body
(the continuation `k`, arbitrary) never influences the result. -/
theorem C3_try_propagation {V R : Type} (c : Completion V R) :
    (∀ x : V, c = .Value x → ∀ k : V → R, tryExpand c k = k x) ∧
    (∀ a : R, c = .Abrupt a → ∀ k : V → R, tryExpand c k = a) := by
  constructor
  · rintro x rfl k
    rfl
  · rintro a rfl k
    rfl

/-- C3 witness: the propagation theorem applied at concrete carriers over
`Nat` and `Option Nat`, both hypotheses discharged by rfl. -/
theorem C3_try_propagation_witness :
    tryExpand (Completion.Value 3) (fun n : Nat => some (n + 1)) = some 4 ∧
    tryExpand (Completion.Abrupt (none : Option Nat))
      (fun n : Nat => some (n + 1)) = none :=
  ⟨(C3_try_propagation _).1 3 rfl _, (C3_try_propagation _).2 none rfl _⟩

/-- C4: the Result-to-Option-of-Result instance maps `Ok v` to `Value v`
and `Err e` to `Abrupt (some (Err (einto e)))`: the converted failure is
wrapped as a failure outcome inside a present optional. -/
theorem C4_result_to_option_result {T U E F : Type} (einto : E → F)
    (v : T) (e : E) :
    ResultToOptionResult.into_completion (U := U) einto (.Ok v)
      = .Value v ∧
    ResultToOptionResult.into_completion (T := T) (U := U) einto (.Err e)
      = .Abrupt (some (.Err (einto e))) :=
  ⟨rfl, rfl⟩

/-- C5: the Option-to-Option instance maps `none` to `Abrupt none` for
every target element type `V` (including `Empty`, which has no values at
all, showing no value of `V` is ever constructed on that path), and maps
`some u` to `Value u`. -/
theorem C5_optional_absorption (U V : Type) (u : U) :
    OptionToOption.into_completion (V := V) (none : Option U)
      = .Abrupt none ∧
    OptionToOption.into_completion (V := Empty) (none : Option U)
      = .Abrupt none ∧
    OptionToOption.into_completion (V := V) (some u) = .Value u :=
  ⟨rfl, rfl, rfl⟩

/-- C6: both raw-pointer instances map a null pointer to `Abrupt none`
and a non-null pointer to `Value` of the original pointer, unchanged and
still pointer-typed. -/
theorem C6_null_pointer_mapping {U V : Type} (p : ConstPtr U) (q : MutPtr U) :
    ( p.is_null = true →
      ConstPtrToOption.into_completion (V := V) p = .Abrupt none) ∧
    ( p.is_null = false →
      ConstPtrToOption.into_completion (V := V) p = .Value p) ∧
    ( q.is_null = true →
      MutPtrToOption.into_completion (V := V) q = .Abrupt none) ∧
    ( q.is_null = false →
      MutPtrToOption.into_completion (V := V) q = .Value q) := by
  refine ⟨?_, ?_, ?_, ?_⟩ <;> intro h <;>
    simp [ConstPtrToOption.into_completion, MutPtrToOption.into_completion, h]

/-- C6 witness: the pointer theorem applied at the null pointers of
address 0 and the non-null pointers of address 1, the nullness
hypotheses discharged by rfl. -/
theorem C6_null_pointer_mapping_witness :
    ConstPtrToOption.into_completion (V := Nat) (⟨0⟩ : ConstPtr Nat)
      = .Abrupt none ∧
    ConstPtrToOption.into_completion (V := Nat) (⟨1⟩ : ConstPtr Nat)
      = .Value ⟨1⟩ ∧
    MutPtrToOption.into_completion (V := Nat) (⟨0⟩ : MutPtr Nat)
      = .Abrupt none ∧
    MutPtrToOption.into_completion (V := Nat) (⟨1⟩ : MutPtr Nat)
      = .Value ⟨1⟩ :=
  ⟨(C6_null_pointer_mapping ⟨0⟩ ⟨0⟩).1 rfl,
   (C6_null_pointer_mapping ⟨1⟩ ⟨1⟩).2.1 rfl,
   (C6_null_pointer_mapping ⟨0⟩ ⟨0⟩).2.2.1 rfl,
   (C6_null_pointer_mapping ⟨1⟩ ⟨1⟩).2.2.2 rfl⟩

/-- C7: every built-in instance is total: on every input it returns
exactly one carrier, which is either the value case or the abrupt case;
no input makes any conversion fail. -/
theorem C7_totality {T U E F V : Type} (einto : E → F) (r : Result T E)
    (o : Option U) (p : ConstPtr U) (q : MutPtr U) :
    ((∃ v, ResultToResult.into_completion (U := U) einto r
        = .Value v) ∨
     (∃ a, ResultToResult.into_completion (U := U) einto r
        = .Abrupt a)) ∧
    ((∃ v, ResultToOptionResult.into_completion (U := U) einto r
        = .Value v) ∨
     (∃ a, ResultToOptionResult.into_completion (U := U) einto r
        = .Abrupt a)) ∧
    ((∃ v, OptionToOption.into_completion (V := V) o = .Value v) ∨
     (∃ a, OptionToOption.into_completion (V := V) o = .Abrupt a)) ∧
    ((∃ v, ConstPtrToOption.into_completion (V := V) p = .Value v) ∨
     (∃ a, ConstPtrToOption.into_completion (V := V) p = .Abrupt a)) ∧
    ((∃ v, MutPtrToOption.into_completion (V := V) q = .Value v) ∨
     (∃ a, MutPtrToOption.into_completion (V := V) q = .Abrupt a)) := by
  refine ⟨?_, ?_, ?_, ?_, ?_⟩
  · cases r with
    | Ok v => exact Or.inl ⟨v, rfl⟩
    | Err e => exact Or.inr ⟨.Err (einto e), rfl⟩
  · cases r with
    | Ok v => exact Or.inl ⟨v, rfl⟩
    | Err e => exact Or.inr ⟨some (.Err (einto e)), rfl⟩
  · cases o with
    | some u => exact Or.inl ⟨u, rfl⟩
    | none => exact Or.inr ⟨none, rfl⟩
  · cases h : ConstPtr.is_null p with
    | true =>
      exact Or.inr ⟨none, by simp [ConstPtrToOption.into_completion, h]⟩
    | false =>
      exact Or.inl ⟨p, by simp [ConstPtrToOption.into_completion, h]⟩
  · cases h : MutPtr.is_null q with
    | true =>
      exact Or.inr ⟨none, by simp [MutPtrToOption.into_completion, h]⟩
    | false =>
      exact Or.inl ⟨q, by simp [MutPtrToOption.into_completion, h]⟩

/-- C8: every built-in instance is deterministic: two invocations on equal
source values produce equal carriers; the result depends only on the
source value, as each embedded conversion is a pure function of it. -/
theorem C8_determinism {T U E F V : Type} (einto : E → F)
    (r₁ r₂ : Result T E) (o₁ o₂ : Option U)
    (p₁ p₂ : ConstPtr U) (q₁ q₂ : MutPtr U)
    (hr : r₁ = r₂) (ho : o₁ = o₂) (hp : p₁ = p₂) (hq : q₁ = q₂) :
    ResultToResult.into_completion (U := U) einto r₁
      = ResultToResult.into_completion (U := U) einto r₂ ∧
    ResultToOptionResult.into_completion (U := U) einto r₁
      = ResultToOptionResult.into_completion (U := U) einto r₂ ∧
    OptionToOption.into_completion (V := V) o₁
      = OptionToOption.into_completion (V := V) o₂ ∧
    ConstPtrToOption.into_completion (V := V) p₁
      = ConstPtrToOption.into_completion (V := V) p₂ ∧
    MutPtrToOption.into_completion (V := V) q₁
      = MutPtrToOption.into_completion (V := V) q₂ := by
  subst hr ho hp hq
  exact ⟨rfl, rfl, rfl, rfl, rfl⟩

/-- C8 witness: the determinism theorem applied at concrete values over
`Nat` and `Unit`, all equality hypotheses discharged by rfl. -/
theorem C8_determinism_witness :
    ResultToResult.into_completion (U := Nat) (id : Unit → Unit)
        (Result.Ok 1)
      = ResultToResult.into_completion (U := Nat) (id : Unit → Unit)
        (Result.Ok 1) ∧
    ResultToOptionResult.into_completion (U := Nat) (id : Unit → Unit)
        (Result.Ok 1)
      = ResultToOptionResult.into_completion (U := Nat) (id : Unit → Unit)
        (Result.Ok 1) ∧
    OptionToOption.into_completion (V := Nat) (some 2)
      = OptionToOption.into_completion (V := Nat) (some 2) ∧
    ConstPtrToOption.into_completion (V := Nat) (⟨0⟩ : ConstPtr Nat)
      = ConstPtrToOption.into_completion (V := Nat) (⟨0⟩ : ConstPtr Nat) ∧
    MutPtrToOption.into_completion (V := Nat) (⟨0⟩ : MutPtr Nat)
      = MutPtrToOption.into_completion (V := Nat) (⟨0⟩ : MutPtr Nat) :=
  C8_determinism id (Result.Ok 1) (Result.Ok 1) (some 2) (some 2)
    ⟨0⟩ ⟨0⟩ ⟨0⟩ ⟨0⟩ rfl rfl rfl rfl

/-- C9: the two built-in Result instances agree: converting with target
`Option (Result U F)` equals converting with target `Result U F` and then
wrapping the abrupt payload in `some`, leaving the value case untouched. -/
theorem C9_result_instances_agree {T U E F : Type} (einto : E → F)
    (r : Result T E) :
    ResultToOptionResult.into_completion (U := U) einto r
      = Completion.mapAbrupt some
          (ResultToResult.into_completion (U := U) einto r) := by
  cases r <;> rfl

/-- C10: the Option-to-Option conversion is lossless when the target
element type equals the source one: reading the carrier back (value
payload re-wrapped in some, abrupt payload as is) recovers the original
option exactly. -/
theorem C10_option_roundtrip {U : Type} (o : Option U) :
    OptionToOption.read_back (OptionToOption.into_completion (V := U) o)
      = o := by
  cases o <;> rfl

end Carrier
